import Mathlib

/-!
Verification of the sensor-polling and value-reconciliation core of
`homesens.py` (HomeSensorsApp).  The Python code is shallowly embedded:

* the Reading Store (the instance attributes `temperature`, `humidity`,
  `cpm`, `rad` plus the `value-error` CSS classes acting as error flags)
  becomes the structure `Store`;
* `do_update_values` (the periodic timer callback) becomes a pure state
  transformer over `Store`, taking the raw sysctl readings and the result
  of `fetch_uradmon_data` as explicit inputs;
* the uRadMonitor record scan loop becomes `scanLoop`;
* `detect_sensors` and `check_args` become pure functions over an explicit
  model of the sysctl tree and the startup environment.

Numeric values are modelled as `ℚ` (Python performs true division in the
decikelvin conversion and compares by exact equality).
-/

namespace HomeSensors

/-- The Reading Store: last-known values and per-slot error flags.
`temperature` is `self.temperature` (a float, here `ℚ`), `humidity` is
`self.humidity` (raw integer), `cpm` is `self.cpm`, `rad` is `self.rad`
(unset before the first update, hence `Option`).  A `true` error flag
models the presence of the corresponding `value-error` CSS class. -/
structure Store where
  temperature : Option ℚ
  humidity : Option ℤ
  cpm : Option ℚ
  rad : Option ℚ
  tempError : Bool
  humError : Bool
  cpmError : Bool
  radError : Bool
deriving DecidableEq, Repr

/-- Initial store: `self.temperature = self.humidity = self.cpm = None`,
`self.rad` unset, no `value-error` classes applied. -/
def initStore : Store :=
  ⟨none, none, none, none, false, false, false, false⟩

/-- One cycle's raw local readings: the values of the two sysctl leaves
`dev.gpioths.<sensnum>.<Tflag>` and `dev.gpioths.<sensnum>.<Hflag>`;
`none` models an absent (unreadable) value. -/
structure SensorEnv where
  temperatureRaw : Option ℤ
  humidityRaw : Option ℤ
deriving DecidableEq, Repr

/-- Lines 387-398 of `do_update_values`: if the raw temperature is absent,
set the error flag and touch nothing else; otherwise convert decikelvin to
Celsius (`newtemperature -= 2731; newtemperature /= 10`), clear the error
flag, and store the converted value only when it differs from the stored
one. -/
def updateTemperature (raw : Option ℤ) (s : Store) : Store :=
  match raw with
  | none => { s with tempError := true }
  | some r =>
      let newt : ℚ := ((r : ℚ) - 2731) / 10
      if some newt ≠ s.temperature then
        { s with tempError := false, temperature := some newt }
      else
        { s with tempError := false }

/-- Lines 400-407 of `do_update_values`: same shape as the temperature
branch but with no unit conversion. -/
def updateHumidity (raw : Option ℤ) (s : Store) : Store :=
  match raw with
  | none => { s with humError := true }
  | some r =>
      if some r ≠ s.humidity then
        { s with humError := false, humidity := some r }
      else
        { s with humError := false }

/-- The local-sensor half of `do_update_values` (lines 384-407): the
temperature branch followed by the humidity branch. -/
def localPoll (env : SensorEnv) (s : Store) : Store :=
  updateHumidity env.humidityRaw (updateTemperature env.temperatureRaw s)

/-- One record of the uRadMonitor JSON array.  `status` and `avg_cpm` are
`Option` because JSON `null` is distinguished from a real value by the
code's `is not None` guards. -/
structure TelemetryRecord where
  id : String
  status : Option String
  avg_cpm : Option ℚ
  factor : ℚ
  avg_voltage : ℚ
  avg_duty : ℚ
deriving DecidableEq, Repr

/-- Lines 417-425 of `do_update_values`: scan the fetched array; each
record whose `id` equals the configured device id overwrites all five
working variables (`umstatus`, `umcpm`, `umfactor`, `umvoltage`,
`umduty`), so the last matching record wins.  `none` models the state in
which no record matched (variables still at their initial `None`). -/
def scanLoop (tid : String) (recs : List TelemetryRecord) :
    Option (Option String × Option ℚ × ℚ × ℚ × ℚ) :=
  recs.foldl
    (fun acc item =>
      if item.id = tid then
        some (item.status, item.avg_cpm, item.factor, item.avg_voltage, item.avg_duty)
      else acc)
    none

/-- Lines 415-416: a successful fetch removes the `value-error` class
from both remote slots before the scan even looks for a matching
record. -/
def clearRemoteFlags (s : Store) : Store :=
  { s with radError := false, cpmError := false }

/-- Lines 415-433: the successful-fetch path.  Error flags are cleared
first (`clearRemoteFlags`), the array is scanned (`scanLoop`), and when
the matched record has status `"1"` and a present `avg_cpm` the count
rate is compared with the stored one and, only if different, stored
together with the freshly derived dose rate `avg_cpm * factor`.  Every
other outcome of the scan leaves the store as `clearRemoteFlags`
produced it. -/
def reconcile (tid : String) (recs : List TelemetryRecord) (s : Store) : Store :=
  match scanLoop tid recs with
  | some (some st, some c, fac, _volt, _duty) =>
      if st = "1" then
        if (clearRemoteFlags s).cpm ≠ some c then
          { clearRemoteFlags s with cpm := some c, rad := some (c * fac) }
        else clearRemoteFlags s
      else clearRemoteFlags s
  | _ => clearRemoteFlags s

/-- Lines 409-433 of `do_update_values` (the uRadMonitor half, executed
when `Uflag` is set).  `fetched` is the return value of
`fetch_uradmon_data`: `none` on any fetch failure.  On failure both error
flags are set and nothing else happens; on success the fetched array is
reconciled against the store. -/
def do_update_urad (tid : String) (fetched : Option (List TelemetryRecord))
    (s : Store) : Store :=
  match fetched with
  | none => { s with radError := true, cpmError := true }
  | some recs => reconcile tid recs s

/-- The whole of `do_update_values` (lines 381-435): local poll, then the
uRadMonitor branch when `uflag` is set. -/
def do_update_values (env : SensorEnv) (uflag : Bool) (tid : String)
    (fetched : Option (List TelemetryRecord)) (s : Store) : Store :=
  let s1 := localPoll env s
  if uflag then do_update_urad tid fetched s1 else s1

/-- The "most recent matching entry in array order": the last record of
the array whose `id` equals the target id. -/
def lastMatch (tid : String) (recs : List TelemetryRecord) :
    Option TelemetryRecord :=
  (recs.filter (fun r => r.id = tid)).getLast?

/-- The HTTP request issued by `fetch_uradmon_data` (lines 79-81):
`requests.get(self.uradmon_api, headers=...)`.  No `timeout` keyword is
passed, so the request carries no bound (`requests` defaults to waiting
indefinitely); `timeout := none` records exactly that. -/
structure HttpRequest where
  url : String
  headers : List (String × String)
  timeout : Option ℕ
deriving DecidableEq, Repr

/-- Default API endpoint (line 71). -/
def uradmon_api_default : String := "https://data.uradmonitor.com/api/v1/devices"

/-- The request `fetch_uradmon_data` builds from the configured endpoint
and credentials. -/
def fetch_uradmon_request (api userid userkey : String) : HttpRequest :=
  { url := api
    headers := [(("X-User-Id" : String), userid), (("X-User-Hash" : String), userkey)]
    timeout := none }

/-- The ways a `requests` call can fail: all are subclasses of
`requests.RequestException`, which is the single clause caught at line 90
(`raise_for_status` turns a non-2xx response into an `HTTPError`, also a
`RequestException`). -/
inductive FetchError where
  | timedOut
  | connectionError
  | httpStatus (code : ℕ)
deriving DecidableEq, Repr

/-- Lines 76-92: the fetch returns the parsed array on success and `None`
on any `RequestException`, with no distinction between failure kinds. -/
def fetch_outcome (outcome : Except FetchError (List TelemetryRecord)) :
    Option (List TelemetryRecord) :=
  match outcome with
  | .ok d => some d
  | .error _ => none

/-- One node returned by `Sysctl("dev.gpioths").children`: a name and a
value (values are stored into the sensor table without inspection, so a
string suffices as their model). -/
structure SysctlLeaf where
  name : String
  value : String
deriving DecidableEq, Repr

/-- The fixed namespace root `thsbase` of `detect_sensors` (line 464). -/
def thsbase : String := "dev.gpioths"

/-- Strip an expected prefix from a character list; `none` if the list
does not start with it. -/
def dropPrefixChars : List Char → List Char → Option (List Char)
  | [], cs => some cs
  | _ :: _, [] => none
  | p :: ps, c :: cs => if c = p then dropPrefixChars ps cs else none

/-- Split a character list into its maximal leading run of ASCII digits
and the remainder (the behaviour of the greedy `[0-9]+` followed by a
non-digit in the discovery regex). -/
def takeDigits : List Char → List Char × List Char
  | [] => ([], [])
  | c :: cs =>
      if c.isDigit then
        let r := takeDigits cs
        (c :: r.1, r.2)
      else ([], c :: cs)

/-- The discovery regex of line 468,
`^dev\.gpioths\.([0-9]+)\.%(\S+)$`: after the fixed root and a dot, one
or more digits (group 1), a dot, a literal percent sign, and one or more
non-whitespace characters (group 2, which excludes the percent sign).
Returns the two captured groups on a match.  Greedy digit matching is
exact here because a digit can never satisfy the following `\.`. -/
def matchSensorLeaf (name : String) : Option (String × String) :=
  match dropPrefixChars (thsbase ++ ".").toList name.toList with
  | none => none
  | some rest =>
      let d := takeDigits rest
      if d.1 = [] then none
      else
        match d.2 with
        | '.' :: '%' :: prop =>
            if prop ≠ [] ∧ prop.all (fun c => ¬ c.isWhitespace) then
              some (String.mk d.1, String.mk prop)
            else none
        | _ => none

/-- Modelled from the spec: the leaf-name pattern as the spec words it,
`<root>.<index>.<property>` — i.e. the same shape but with no percent
sign required before the property.  This definition follows the spec's
words and exists only to state the original claim C9 for comparison with
the source's `matchSensorLeaf`. -/
def matchSensorLeafSpec (name : String) : Option (String × String) :=
  match dropPrefixChars (thsbase ++ ".").toList name.toList with
  | none => none
  | some rest =>
      let d := takeDigits rest
      if d.1 = [] then none
      else
        match d.2 with
        | '.' :: prop =>
            if prop ≠ [] ∧ prop.all (fun c => ¬ c.isWhitespace) then
              some (String.mk d.1, String.mk prop)
            else none
        | _ => none

/-- One iteration of the `detect_sensors` loop body (lines 469-479): if
the leaf's name matches the regex, record
`sensors[index][property] = value` (overwriting any earlier entry, as a
Python dict assignment does); otherwise `continue`.  The table is
modelled as the lookup function it induces. -/
def insertLeaf (tbl : String → String → Option String) (leaf : SysctlLeaf) :
    String → String → Option String :=
  match matchSensorLeaf leaf.name with
  | none => tbl
  | some dp => fun k p => if k = dp.1 ∧ p = dp.2 then some leaf.value else tbl k p

/-- Lines 469-479 of `detect_sensors`: fold the loop body over the
children, starting from the empty table. -/
def sensorsTable (leaves : List SysctlLeaf) : String → String → Option String :=
  leaves.foldl insertLeaf (fun _ _ => none)

/-- `detect_sensors` (lines 463-483) as a success predicate: it returns
`False` when `Sysctl(thsbase).children` is `None` (namespace absent) or
when no leaf matched the regex (`len(self.sensors) < 1`), and `True`
otherwise. -/
def detect_sensors_ok (children : Option (List SysctlLeaf)) : Bool :=
  match children with
  | none => false
  | some leaves => leaves.any (fun leaf => (matchSensorLeaf leaf.name).isSome)

/-- Line 598: `str(self.sensnum) in self.sensors.keys()` — the selected
sensor number is a key of the table exactly when some leaf's captured
index group equals its decimal rendering. -/
def sensorKnown (leaves : List SysctlLeaf) (sensnum : ℤ) : Bool :=
  leaves.any (fun leaf =>
    match matchSensorLeaf leaf.name with
    | some dp => dp.1 = toString sensnum
    | none => false)

/-- The configuration fields of `HomeSensorsApp` that `check_args`
consults (after `parse_args` has filled them). -/
structure Config where
  Uflag : Bool
  lflag : Bool
  sensnum : ℤ
  uradmon_id : Option String
  uradmon_userid : Option String
  uradmon_userkey : Option String
deriving DecidableEq, Repr

/-- The external facts `check_args` observes: the sysctl children of the
root, whether the API hostname resolves, and the HTTP status of the probe
GET (`none` for a transport failure). -/
structure StartupEnv where
  children : Option (List SysctlLeaf)
  hostResolvable : Bool
  probeResponse : Option ℕ
deriving DecidableEq, Repr

/-- `webserver_reachable` (lines 511-517): true exactly when the probe
GET returned and its status code was 2xx (`status_code // 100 == 2`). -/
def webserver_reachable (resp : Option ℕ) : Bool :=
  match resp with
  | none => false
  | some code => code / 100 = 2

/-- Outcome of `check_args`: either the process exits with a code and a
diagnostic, or startup continues with the (possibly mutated)
configuration and the warnings printed along the way. -/
inductive CheckResult where
  | exit (code : ℕ) (msg : String)
  | ok (cfg : Config) (warnings : List String)
deriving DecidableEq, Repr

/-- `check_args` (lines 582-608), in source order: (1) if uRadMonitor is
enabled but any of the three parameters is missing, warn and clear
`Uflag`; (2) if sensor detection fails, exit 1; (3) if listing was
requested, list and exit 1; (4) if the selected sensor number is not a
table key, exit 1; (5) if uRadMonitor is still enabled but the API
hostname does not resolve or the probe GET is not 2xx, warn and clear
`Uflag`; then return normally. -/
def check_args (cfg : Config) (env : StartupEnv) : CheckResult :=
  let missingParams : Bool :=
    cfg.uradmon_id.isNone || cfg.uradmon_userid.isNone || cfg.uradmon_userkey.isNone
  let uflag1 : Bool := if cfg.Uflag && missingParams then false else cfg.Uflag
  let w1 : List String :=
    if cfg.Uflag && missingParams then
      ["WARNING: uRadMonitor parameters are not specified, disabling uRadMonitor."]
    else []
  if detect_sensors_ok env.children = false then
    .exit 1 "ERROR: No sensor(s) detected!"
  else if cfg.lflag then
    .exit 1 ""
  else if sensorKnown (env.children.getD []) cfg.sensnum = false then
    .exit 1 "ERROR: Invalid sensor number specified!"
  else if uflag1 && (!env.hostResolvable || !webserver_reachable env.probeResponse) then
    .ok { cfg with Uflag := false }
      (w1 ++ ["WARNING: uRadMon API URL does not resolve and/or respond, disabling uRadMontitor."])
  else
    .ok { cfg with Uflag := uflag1 } w1

/-! ### Basic facts about the local-poll branches -/

@[simp]
lemma updateTemperature_humidity (raw : Option ℤ) (s : Store) :
    (updateTemperature raw s).humidity = s.humidity := by
  unfold updateTemperature
  cases raw
  · simp
  · simp only [updateTemperature, updateHumidity]
    split_ifs <;> rfl

@[simp]
lemma updateTemperature_humError (raw : Option ℤ) (s : Store) :
    (updateTemperature raw s).humError = s.humError := by
  unfold updateTemperature
  cases raw
  · simp
  · simp only [updateTemperature, updateHumidity]
    split_ifs <;> rfl

@[simp]
lemma updateTemperature_none_temperature (s : Store) :
    (updateTemperature none s).temperature = s.temperature := rfl

@[simp]
lemma updateTemperature_none_tempError (s : Store) :
    (updateTemperature none s).tempError = true := rfl

@[simp]
lemma updateTemperature_some_temperature (r : ℤ) (s : Store) :
    (updateTemperature (some r) s).temperature = some (((r : ℚ) - 2731) / 10) := by
  unfold updateTemperature
  simp only []
  split_ifs with hc
  · rfl
  · push_neg at hc
    simpa using hc.symm

@[simp]
lemma updateTemperature_some_tempError (r : ℤ) (s : Store) :
    (updateTemperature (some r) s).tempError = false := by
  unfold updateTemperature
  simp only []
  split_ifs <;> rfl

@[simp]
lemma updateHumidity_temperature (raw : Option ℤ) (s : Store) :
    (updateHumidity raw s).temperature = s.temperature := by
  unfold updateHumidity
  cases raw
  · simp
  · simp only [updateTemperature, updateHumidity]
    split_ifs <;> rfl

@[simp]
lemma updateHumidity_tempError (raw : Option ℤ) (s : Store) :
    (updateHumidity raw s).tempError = s.tempError := by
  unfold updateHumidity
  cases raw
  · simp
  · simp only [updateTemperature, updateHumidity]
    split_ifs <;> rfl

@[simp]
lemma updateHumidity_none_humidity (s : Store) :
    (updateHumidity none s).humidity = s.humidity := rfl

@[simp]
lemma updateHumidity_none_humError (s : Store) :
    (updateHumidity none s).humError = true := rfl

@[simp]
lemma updateHumidity_some_humidity (r : ℤ) (s : Store) :
    (updateHumidity (some r) s).humidity = some r := by
  unfold updateHumidity
  simp only []
  split_ifs with hc
  · rfl
  · push_neg at hc
    simpa using hc.symm

@[simp]
lemma updateHumidity_some_humError (r : ℤ) (s : Store) :
    (updateHumidity (some r) s).humError = false := by
  unfold updateHumidity
  simp only []
  split_ifs <;> rfl

lemma updateTemperature_mutates_iff (r : ℤ) (s : Store) :
    (updateTemperature (some r) s).temperature ≠ s.temperature
      ↔ some (((r : ℚ) - 2731) / 10) ≠ s.temperature := by
  rw [updateTemperature_some_temperature]

lemma updateHumidity_mutates_iff (r : ℤ) (s : Store) :
    (updateHumidity (some r) s).humidity ≠ s.humidity ↔ some r ≠ s.humidity := by
  rw [updateHumidity_some_humidity]

/-! ### The claims about the Local Sensor Reader -/

/-- Claim C2: over any local poll, a slot's stored value is mutated
exactly when the freshly read post-conversion value differs from the
stored one; an unchanged reading leaves the store untouched but still
clears the slot's error flag; and a second poll over identical source
data mutates no stored value. -/
theorem C2_local_change_detection (tr hr : ℤ) (env : SensorEnv) (s : Store) :
    ((localPoll ⟨some tr, some hr⟩ s).temperature ≠ s.temperature
        ↔ some (((tr : ℚ) - 2731) / 10) ≠ s.temperature)
    ∧ ((localPoll ⟨some tr, some hr⟩ s).humidity ≠ s.humidity ↔ some hr ≠ s.humidity)
    ∧ (localPoll ⟨some tr, some hr⟩ s).temperature = some (((tr : ℚ) - 2731) / 10)
    ∧ (localPoll ⟨some tr, some hr⟩ s).humidity = some hr
    ∧ (localPoll ⟨some tr, some hr⟩ s).tempError = false
    ∧ (localPoll ⟨some tr, some hr⟩ s).humError = false
    ∧ (localPoll env (localPoll env s)).temperature = (localPoll env s).temperature
    ∧ (localPoll env (localPoll env s)).humidity = (localPoll env s).humidity := by
  unfold localPoll
  refine ⟨by simp, by simp, by simp, by simp, by simp, by simp, ?_, ?_⟩
  · cases htr : env.temperatureRaw with
    | none => simp
    | some r => simp
  · cases hhr : env.humidityRaw with
    | none => simp
    | some r => simp

/-- Claim C3: a present raw temperature reading is stored as exactly
(raw - 2731)/10 under exact rational division — raw 2731 gives 0, raw
3731 gives 100, raw 2985 gives 25.4 = 127/5 — and a present humidity
reading is stored unconverted. -/
theorem C3_decikelvin_conversion (r h : ℤ) (s : Store) :
    (updateTemperature (some r) s).temperature = some (((r : ℚ) - 2731) / 10)
    ∧ (updateHumidity (some h) s).humidity = some h
    ∧ (updateTemperature (some 2731) initStore).temperature = some 0
    ∧ (updateTemperature (some 3731) initStore).temperature = some 100
    ∧ (updateTemperature (some 2985) initStore).temperature = some (127/5) := by
  refine ⟨by simp, by simp, by simp, ?_, ?_⟩ <;> · simp; norm_num

/-- Claim C5: an absent local reading marks exactly the affected slot as
erroneous and leaves its stored value unchanged, while the other slot is
processed normally. -/
theorem C5_absent_reading_isolated (tr hr : ℤ) (s : Store) :
    ((localPoll ⟨none, some hr⟩ s).tempError = true
      ∧ (localPoll ⟨none, some hr⟩ s).temperature = s.temperature
      ∧ (localPoll ⟨none, some hr⟩ s).humError = false
      ∧ (localPoll ⟨none, some hr⟩ s).humidity = some hr)
    ∧ ((localPoll ⟨some tr, none⟩ s).humError = true
      ∧ (localPoll ⟨some tr, none⟩ s).humidity = s.humidity
      ∧ (localPoll ⟨some tr, none⟩ s).tempError = false
      ∧ (localPoll ⟨some tr, none⟩ s).temperature = some (((tr : ℚ) - 2731) / 10)) := by
  unfold localPoll
  refine ⟨⟨by simp, by simp, by simp, by simp⟩, by simp, by simp, by simp, by simp⟩

/-! ### Facts about the uRadMonitor scan and reconciliation -/

/-- The scan-and-overwrite loop computes exactly the five fields of the
most recent matching record in array order. -/
lemma scanLoop_eq_lastMatch (tid : String) (recs : List TelemetryRecord) :
    scanLoop tid recs
      = (lastMatch tid recs).map
          (fun it => (it.status, it.avg_cpm, it.factor, it.avg_voltage, it.avg_duty)) := by
  induction recs using List.reverseRecOn with
  | nil => rfl
  | append_singleton l r ih =>
      unfold scanLoop lastMatch
      unfold scanLoop lastMatch at ih
      rw [List.foldl_append, List.filter_append]
      by_cases hr : r.id = tid
      · simp [hr]
      · simp only [List.foldl_cons, List.foldl_nil, hr, if_neg]
        simp [hr, ih]

@[simp]
lemma clearRemoteFlags_temperature (s : Store) :
    (clearRemoteFlags s).temperature = s.temperature := rfl

@[simp]
lemma clearRemoteFlags_humidity (s : Store) :
    (clearRemoteFlags s).humidity = s.humidity := rfl

@[simp]
lemma clearRemoteFlags_cpm (s : Store) : (clearRemoteFlags s).cpm = s.cpm := rfl

@[simp]
lemma clearRemoteFlags_rad (s : Store) : (clearRemoteFlags s).rad = s.rad := rfl

@[simp]
lemma clearRemoteFlags_tempError (s : Store) :
    (clearRemoteFlags s).tempError = s.tempError := rfl

@[simp]
lemma clearRemoteFlags_humError (s : Store) :
    (clearRemoteFlags s).humError = s.humError := rfl

@[simp]
lemma clearRemoteFlags_cpmError (s : Store) :
    (clearRemoteFlags s).cpmError = false := rfl

@[simp]
lemma clearRemoteFlags_radError (s : Store) :
    (clearRemoteFlags s).radError = false := rfl

/-- Whatever the scan finds, a successful fetch ends the cycle with both
remote error flags cleared. -/
lemma reconcile_flags (tid : String) (recs : List TelemetryRecord) (s : Store) :
    (reconcile tid recs s).cpmError = false
    ∧ (reconcile tid recs s).radError = false := by
  unfold reconcile
  split
  · split_ifs <;> exact ⟨rfl, rfl⟩
  · exact ⟨rfl, rfl⟩

@[simp]
lemma do_update_urad_none (tid : String) (s : Store) :
    do_update_urad tid none s = { s with radError := true, cpmError := true } := rfl

@[simp]
lemma do_update_urad_some (tid : String) (recs : List TelemetryRecord) (s : Store) :
    do_update_urad tid (some recs) s = reconcile tid recs s := rfl

/-- The reconciliation branch never touches the local-sensor slots. -/
lemma do_update_urad_local_frame (tid : String)
    (fetched : Option (List TelemetryRecord)) (s : Store) :
    (do_update_urad tid fetched s).temperature = s.temperature
    ∧ (do_update_urad tid fetched s).humidity = s.humidity
    ∧ (do_update_urad tid fetched s).tempError = s.tempError
    ∧ (do_update_urad tid fetched s).humError = s.humError := by
  cases fetched with
  | none => exact ⟨rfl, rfl, rfl, rfl⟩
  | some recs =>
      rw [do_update_urad_some]
      unfold reconcile
      split
      · split_ifs <;> exact ⟨rfl, rfl, rfl, rfl⟩
      · exact ⟨rfl, rfl, rfl, rfl⟩

/-- When the scan finds no active matching record (no match at all, an
inactive status, or an absent count-rate), reconciliation is exactly the
flag-clearing step. -/
lemma reconcile_no_active (tid : String) (recs : List TelemetryRecord) (s : Store)
    (h : ∀ it, lastMatch tid recs = some it →
        ¬ (it.status = some "1" ∧ (it.avg_cpm).isSome)) :
    reconcile tid recs s = clearRemoteFlags s := by
  unfold reconcile
  rw [scanLoop_eq_lastMatch]
  rcases hlast : lastMatch tid recs with _ | it
  · rfl
  · have hit := h it hlast
    simp only [Option.map_some']
    rcases hst : it.status with _ | st
    · simp [hst]
    · rcases hcpm : it.avg_cpm with _ | c
      · simp [hst, hcpm]
      · have hne : st ≠ "1" := by
          intro he
          exact hit ⟨by rw [hst, he], by rw [hcpm]; rfl⟩
        simp [hst, hcpm, hne]

/-- When the scan finds an active matching record with a present
count-rate, reconciliation is the change-detection step on the cleared
store. -/
lemma reconcile_active (tid : String) (recs : List TelemetryRecord)
    (it : TelemetryRecord) (c : ℚ) (s : Store)
    (hlast : lastMatch tid recs = some it)
    (hst : it.status = some "1") (hcpm : it.avg_cpm = some c) :
    reconcile tid recs s =
      if s.cpm ≠ some c then
        { clearRemoteFlags s with cpm := some c, rad := some (c * it.factor) }
      else clearRemoteFlags s := by
  unfold reconcile
  rw [scanLoop_eq_lastMatch, hlast]
  simp only [Option.map_some', hst, hcpm, clearRemoteFlags_cpm]
  simp

/-! ### The claims about the Remote Telemetry Fetcher -/

/-- A fetched array with one record whose id is "A" (inactive), against a
store already holding values, targeted at the unmatched id "Z". -/
def recsNoMatch : List TelemetryRecord :=
  [⟨"A", some "0", some 5, 1/100, 380, 25⟩]

/-- A store holding prior values for every slot, with no error flags. -/
def storePrior : Store :=
  ⟨some 21, some 40, some 7, some (7/100), false, false, false, false⟩

/-- Claim C1 counterexample: reconciling a successfully fetched array in
which no record matches the configured id "Z" does NOT set the error
flags on the countRate and doseRate slots — the code cleared both flags
as soon as the fetch succeeded and the no-match branch never sets them
back. -/
theorem C1_counterexample :
    ¬ ((do_update_urad "Z" (some recsNoMatch) storePrior).cpmError = true
       ∧ (do_update_urad "Z" (some recsNoMatch) storePrior).radError = true) := by
  simp [do_update_urad, reconcile, scanLoop, clearRemoteFlags, recsNoMatch, storePrior]

/-- Claim C1 (amended): when no record matches the configured id, or the
matched record's status is not "1", or its count-rate is absent, both
slots retain their prior stored values, but both error flags end the
cycle CLEARED (false), not set: a successful fetch clears them before the
scan and this branch never touches them again. -/
theorem C1_no_active_match (tid : String) (recs : List TelemetryRecord) (s : Store)
    (h : ∀ it, lastMatch tid recs = some it →
        ¬ (it.status = some "1" ∧ (it.avg_cpm).isSome)) :
    (do_update_urad tid (some recs) s).cpm = s.cpm
    ∧ (do_update_urad tid (some recs) s).rad = s.rad
    ∧ (do_update_urad tid (some recs) s).cpmError = false
    ∧ (do_update_urad tid (some recs) s).radError = false := by
  have hr : do_update_urad tid (some recs) s = clearRemoteFlags s :=
    reconcile_no_active tid recs s h
  rw [hr]
  exact ⟨rfl, rfl, rfl, rfl⟩

/-- Witness for C1: target id "Z" matches no record of `recsNoMatch`, and
reconciliation leaves the stored count and dose rates at their prior
values with both flags cleared. -/
theorem C1_no_active_match_witness :
    (do_update_urad "Z" (some recsNoMatch) storePrior).cpm = storePrior.cpm
    ∧ (do_update_urad "Z" (some recsNoMatch) storePrior).rad = storePrior.rad
    ∧ (do_update_urad "Z" (some recsNoMatch) storePrior).cpmError = false
    ∧ (do_update_urad "Z" (some recsNoMatch) storePrior).radError = false :=
  C1_no_active_match "Z" recsNoMatch storePrior
    (by intro it hit; simp [lastMatch, recsNoMatch] at hit)

/-- Claim C4: a failed fetch sets both remote error flags, leaves every
stored value untouched, and does no further remote processing; a
subsequent successful fetch whose last matching record is active (status
"1", count-rate present) clears both flags, whether or not the stored
count rate changes. -/
theorem C4_fetch_failure (tid : String) (s : Store) (recs : List TelemetryRecord)
    (it : TelemetryRecord) (c : ℚ)
    (_hlast : lastMatch tid recs = some it)
    (_hst : it.status = some "1")
    (_hcpm : it.avg_cpm = some c) :
    (do_update_urad tid none s).cpmError = true
    ∧ (do_update_urad tid none s).radError = true
    ∧ (do_update_urad tid none s).cpm = s.cpm
    ∧ (do_update_urad tid none s).rad = s.rad
    ∧ (do_update_urad tid none s).temperature = s.temperature
    ∧ (do_update_urad tid none s).humidity = s.humidity
    ∧ (do_update_urad tid (some recs) (do_update_urad tid none s)).cpmError = false
    ∧ (do_update_urad tid (some recs) (do_update_urad tid none s)).radError = false := by
  exact ⟨rfl, rfl, rfl, rfl, rfl, rfl,
    (reconcile_flags tid recs _).1, (reconcile_flags tid recs _).2⟩

/-- Witness for C4: after a failed fetch against `storePrior`, a
successful fetch of an array whose record "B" is active clears both
flags. -/
theorem C4_fetch_failure_witness :
    (do_update_urad "B" none storePrior).cpmError = true
    ∧ (do_update_urad "B" none storePrior).radError = true
    ∧ (do_update_urad "B" none storePrior).cpm = storePrior.cpm
    ∧ (do_update_urad "B" none storePrior).rad = storePrior.rad
    ∧ (do_update_urad "B" none storePrior).temperature = storePrior.temperature
    ∧ (do_update_urad "B" none storePrior).humidity = storePrior.humidity
    ∧ (do_update_urad "B" (some [⟨"B", some "1", some 7, 1/100, 380, 25⟩])
        (do_update_urad "B" none storePrior)).cpmError = false
    ∧ (do_update_urad "B" (some [⟨"B", some "1", some 7, 1/100, 380, 25⟩])
        (do_update_urad "B" none storePrior)).radError = false :=
  C4_fetch_failure "B" storePrior [⟨"B", some "1", some 7, 1/100, 380, 25⟩]
    ⟨"B", some "1", some 7, 1/100, 380, 25⟩ 7
    (by simp [lastMatch]) rfl rfl

/-- The dose rate slot moves only together with the count rate slot: in
every branch of the remote update that leaves `cpm` alone, `rad` is left
alone too. -/
lemma rad_change_implies_cpm_change (tid : String)
    (fetched : Option (List TelemetryRecord)) (s : Store) :
    (do_update_urad tid fetched s).rad ≠ s.rad →
      (do_update_urad tid fetched s).cpm ≠ s.cpm := by
  cases fetched with
  | none => intro h; exact absurd rfl h
  | some recs =>
      rw [do_update_urad_some]
      unfold reconcile
      split
      · split_ifs with h1 h2
        · intro _
          simpa using fun he => h2 he.symm
        · intro h; exact absurd rfl h
        · intro h; exact absurd rfl h
      · intro h; exact absurd rfl h

/-- The array of the spec's worked example: an inactive record "A"
followed by an active record "B" with count rate 12 and factor 0.01. -/
def recsExample : List TelemetryRecord :=
  [⟨"A", some "0", none, 1, 0, 0⟩, ⟨"B", some "1", some 12, 1/100, 380, 25⟩]

/-- Claim C6: with an active matching record carrying count rate `c`, a
differing stored count rate is replaced by `c` and the dose rate is
recomputed as `c * factor` in the same step; an equal stored count rate
mutates neither slot; the dose rate never moves without the count rate
moving; and on the spec's worked example (target "B") the count rate
becomes 12, the dose rate 0.12, with no error flags set. -/
theorem C6_active_record_update (tid : String) (recs : List TelemetryRecord)
    (it : TelemetryRecord) (c : ℚ) (s : Store)
    (hlast : lastMatch tid recs = some it)
    (hst : it.status = some "1") (hcpm : it.avg_cpm = some c) :
    (s.cpm ≠ some c →
        (do_update_urad tid (some recs) s).cpm = some c
        ∧ (do_update_urad tid (some recs) s).rad = some (c * it.factor))
    ∧ (s.cpm = some c →
        (do_update_urad tid (some recs) s).cpm = s.cpm
        ∧ (do_update_urad tid (some recs) s).rad = s.rad)
    ∧ (∀ (fetched : Option (List TelemetryRecord)) (s' : Store),
        (do_update_urad tid fetched s').rad ≠ s'.rad →
        (do_update_urad tid fetched s').cpm ≠ s'.cpm)
    ∧ (do_update_values ⟨some 2985, some 40⟩ true "B" (some recsExample) initStore).cpm = some 12
    ∧ (do_update_values ⟨some 2985, some 40⟩ true "B" (some recsExample) initStore).rad
        = some (12/100)
    ∧ (do_update_values ⟨some 2985, some 40⟩ true "B" (some recsExample) initStore).cpmError
        = false
    ∧ (do_update_values ⟨some 2985, some 40⟩ true "B" (some recsExample) initStore).radError
        = false := by
  have hrec := reconcile_active tid recs it c s hlast hst hcpm
  refine ⟨?_, ?_, fun fetched s' => rad_change_implies_cpm_change tid fetched s', ?_, ?_, ?_, ?_⟩
  · intro hne
    rw [do_update_urad_some, hrec, if_pos hne]
    exact ⟨rfl, rfl⟩
  · intro heq
    have : ¬ (s.cpm ≠ some c) := by simpa using heq
    rw [do_update_urad_some, hrec, if_neg this]
    exact ⟨rfl, rfl⟩
  all_goals
    simp [do_update_values, localPoll, updateTemperature, updateHumidity,
      do_update_urad, reconcile, clearRemoteFlags, scanLoop, recsExample, initStore]
  norm_num

/-- Witness for C6: on the worked example, with nothing stored yet, the
count rate becomes 12 and the dose rate 12 × 0.01. -/
theorem C6_active_record_update_witness :
    (do_update_urad "B" (some recsExample) initStore).cpm = some 12
    ∧ (do_update_urad "B" (some recsExample) initStore).rad = some (12 * (1/100)) := by
  have h := C6_active_record_update "B" recsExample
    ⟨"B", some "1", some 12, 1/100, 380, 25⟩ 12 initStore
    (by simp [lastMatch, recsExample]) rfl rfl
  exact h.1 (by simp [initStore])

/-- Claim C8: the scan-and-overwrite loop leaves the five working
variables holding the status, count-rate, factor, voltage and duty fields
of the LAST record in array order whose id equals the configured one, so
reconciliation uses the last match when duplicates exist. -/
theorem C8_last_match_wins (tid : String) (recs : List TelemetryRecord)
    (it : TelemetryRecord) (h : lastMatch tid recs = some it) :
    scanLoop tid recs
      = some (it.status, it.avg_cpm, it.factor, it.avg_voltage, it.avg_duty) := by
  rw [scanLoop_eq_lastMatch, h]
  rfl

/-- Witness for C8: an array with two records whose id is "B"; the scan
returns the fields of the second (later) one. -/
theorem C8_last_match_wins_witness :
    scanLoop "B"
        [⟨"B", some "1", some 12, 1/100, 380, 25⟩,
         ⟨"A", some "0", none, 1, 0, 0⟩,
         ⟨"B", some "0", some 7, 1/50, 390, 30⟩]
      = some (some "0", some 7, 1/50, 390, 30) :=
  C8_last_match_wins "B"
    [⟨"B", some "1", some 12, 1/100, 380, 25⟩,
     ⟨"A", some "0", none, 1, 0, 0⟩,
     ⟨"B", some "0", some 7, 1/50, 390, 30⟩]
    ⟨"B", some "0", some 7, 1/50, 390, 30⟩
    (by simp [lastMatch])

/-! ### The claims about the fetch request, discovery and startup -/

/-- Claim C7 counterexample: the GET issued by `fetch_uradmon_data`
carries no 5-second timeout — no timeout argument is passed at all (the
probe in `webserver_reachable` has one, the data fetch does not). -/
theorem C7_counterexample :
    ¬ ((fetch_uradmon_request uradmon_api_default "user" "key").timeout = some 5) := by
  simp [fetch_uradmon_request]

/-- Claim C7 (amended): the single GET is issued with header-based auth
and NO explicit timeout (so no 5-second bound exists), and every
transport failure — a timeout included — is handled identically: the
fetch returns `None`. -/
theorem C7_no_timeout (api userid userkey : String) :
    (fetch_uradmon_request api userid userkey).timeout = none
    ∧ (fetch_uradmon_request api userid userkey).url = api
    ∧ (fetch_uradmon_request api userid userkey).headers
        = [(("X-User-Id" : String), userid), (("X-User-Hash" : String), userkey)]
    ∧ (∀ e : FetchError, fetch_outcome (Except.error e) = none)
    ∧ (∀ e : FetchError, fetch_outcome (Except.error e)
        = fetch_outcome (Except.error FetchError.timedOut)) :=
  ⟨rfl, rfl, rfl, fun _ => rfl, fun _ => rfl⟩

lemma insertLeaf_isSome_mono (tbl : String → String → Option String)
    (leaf : SysctlLeaf) (d p : String) (h : (tbl d p).isSome) :
    ((insertLeaf tbl leaf) d p).isSome := by
  unfold insertLeaf
  rcases hmc : matchSensorLeaf leaf.name with _ | dp
  · exact h
  · simp only []
    split_ifs
    · rfl
    · exact h

lemma foldl_insertLeaf_isSome_mono :
    ∀ (leaves : List SysctlLeaf) (tbl : String → String → Option String)
      (d p : String), (tbl d p).isSome →
      ((leaves.foldl insertLeaf tbl) d p).isSome := by
  intro leaves
  induction leaves with
  | nil => intro tbl d p h; exact h
  | cons a as ih =>
      intro tbl d p h
      exact ih (insertLeaf tbl a) d p (insertLeaf_isSome_mono tbl a d p h)

lemma insertLeaf_hit (tbl : String → String → Option String) (leaf : SysctlLeaf)
    (d p : String) (h : matchSensorLeaf leaf.name = some (d, p)) :
    ((insertLeaf tbl leaf) d p).isSome := by
  unfold insertLeaf
  rw [h]
  simp

lemma sensorsTable_records_aux :
    ∀ (leaves : List SysctlLeaf) (tbl : String → String → Option String)
      (leaf : SysctlLeaf) (d p : String),
      leaf ∈ leaves → matchSensorLeaf leaf.name = some (d, p) →
      ((leaves.foldl insertLeaf tbl) d p).isSome := by
  intro leaves
  induction leaves with
  | nil => intro tbl leaf d p hm _; exact absurd hm (List.not_mem_nil leaf)
  | cons a as ih =>
      intro tbl leaf d p hm hmatch
      rcases List.mem_cons.mp hm with he | hm'
      · subst he
        exact foldl_insertLeaf_isSome_mono as (insertLeaf tbl leaf) d p
          (insertLeaf_hit tbl leaf d p hmatch)
      · exact ih (insertLeaf tbl a) leaf d p hm' hmatch

@[simp]
lemma detect_sensors_ok_none : detect_sensors_ok none = false := rfl

@[simp]
lemma detect_sensors_ok_some (leaves : List SysctlLeaf) :
    detect_sensors_ok (some leaves)
      = leaves.any (fun leaf => (matchSensorLeaf leaf.name).isSome) := rfl

/-- `detect_sensors` fails exactly when the namespace is absent or no
leaf matches the discovery regex. -/
lemma detect_sensors_ok_false_iff (children : Option (List SysctlLeaf)) :
    detect_sensors_ok children = false ↔
      (children = none ∨
        ∀ leaf ∈ children.getD [], matchSensorLeaf leaf.name = none) := by
  cases children with
  | none => simp
  | some leaves =>
      rw [detect_sensors_ok_some]
      constructor
      · intro h
        right
        intro leaf hmem
        by_contra hne
        have hsome : (matchSensorLeaf leaf.name).isSome :=
          Option.ne_none_iff_isSome.mp hne
        have htrue : leaves.any (fun leaf => (matchSensorLeaf leaf.name).isSome) = true :=
          List.any_eq_true.mpr ⟨leaf, hmem, hsome⟩
        rw [h] at htrue
        exact Bool.false_ne_true htrue
      · intro h
        rcases h with h | h
        · exact absurd h (by simp)
        · rw [Bool.eq_false_iff]
          intro htrue
          rcases List.any_eq_true.mp htrue with ⟨leaf, hmem, hsome⟩
          rw [h leaf hmem] at hsome
          exact Bool.false_ne_true hsome

/-- Claim C9 counterexample: the leaf `dev.gpioths.0.temperature`
matches the claimed pattern `<root>.<index>.<property>`, yet
`detect_sensors` records no entry for it and discovery fails on a tree
containing exactly this leaf: the code's regex additionally demands a
literal percent sign before the property name, so only metadata leaves
are recorded. -/
theorem C9_counterexample :
    matchSensorLeafSpec "dev.gpioths.0.temperature" = some ("0", "temperature")
    ∧ sensorsTable [⟨"dev.gpioths.0.temperature", "2985"⟩] "0" "temperature" = none
    ∧ detect_sensors_ok (some [⟨"dev.gpioths.0.temperature", "2985"⟩]) = false
    ∧ matchSensorLeaf "dev.gpioths.0.temperature" = none := by
  refine ⟨by decide, by decide, by decide, by decide⟩

/-- Claim C9 (amended): discovery records an `(index, property)` entry
for every leaf matching `<root>.<index>.%<property>` (the percent-prefixed
metadata leaves, with the percent sign stripped from the recorded
property name — `driver` and `desc` are recorded this way), fails exactly
when the namespace is absent or zero leaves match that pattern, and such
a failure makes `check_args` exit with the non-zero status 1 and a
diagnostic. -/
theorem C9_discovery (leaves : List SysctlLeaf) (leaf : SysctlLeaf) (d p : String)
    (cfg : Config) (env : StartupEnv) (children : Option (List SysctlLeaf)) :
    (leaf ∈ leaves → matchSensorLeaf leaf.name = some (d, p) →
      (sensorsTable leaves d p).isSome)
    ∧ (detect_sensors_ok children = false ↔
        (children = none ∨ ∀ lf ∈ children.getD [], matchSensorLeaf lf.name = none))
    ∧ (detect_sensors_ok env.children = false →
        check_args cfg env = CheckResult.exit 1 "ERROR: No sensor(s) detected!") := by
  refine ⟨?_, detect_sensors_ok_false_iff children, ?_⟩
  · intro hmem hmatch
    exact sensorsTable_records_aux leaves (fun _ _ => none) leaf d p hmem hmatch
  · intro h
    unfold check_args
    rw [h]
    rfl

/-- Witness for C9: on a tree holding the metadata leaves of sensor 0,
the table has an entry for (0, desc); on an absent tree, `check_args`
exits 1. -/
theorem C9_discovery_witness :
    (sensorsTable
        [⟨"dev.gpioths.0.%driver", "gpioths0"⟩, ⟨"dev.gpioths.0.%desc", "DHT22"⟩]
        "0" "desc").isSome
    ∧ check_args ⟨true, false, 0, some "dev1", some "u", some "k"⟩ ⟨none, true, some 200⟩
        = CheckResult.exit 1 "ERROR: No sensor(s) detected!" := by
  have h := C9_discovery
    [⟨"dev.gpioths.0.%driver", "gpioths0"⟩, ⟨"dev.gpioths.0.%desc", "DHT22"⟩]
    ⟨"dev.gpioths.0.%desc", "DHT22"⟩ "0" "desc"
    ⟨true, false, 0, some "dev1", some "u", some "k"⟩ ⟨none, true, some 200⟩ none
  exact ⟨h.1 (by decide) (by decide), h.2.2 (by decide)⟩

/-- Claim C10: when startup would otherwise succeed (sensors detected, no
list request, valid sensor number) but the uRadMonitor parameters are
incomplete, or the API host does not resolve, or the probe GET is not
2xx, `check_args` does not exit: it returns normally with `Uflag`
cleared and a warning recorded. -/
theorem C10_uradmon_failure_nonfatal (cfg : Config) (env : StartupEnv)
    (hdet : detect_sensors_ok env.children = true)
    (hl : cfg.lflag = false)
    (hs : sensorKnown (env.children.getD []) cfg.sensnum = true)
    (hU : cfg.Uflag = true)
    (hbad : cfg.uradmon_id = none ∨ cfg.uradmon_userid = none
        ∨ cfg.uradmon_userkey = none ∨ env.hostResolvable = false
        ∨ webserver_reachable env.probeResponse = false) :
    ∃ c w, check_args cfg env = CheckResult.ok c w ∧ c.Uflag = false ∧ w ≠ [] := by
  unfold check_args
  by_cases hm : (cfg.uradmon_id.isNone || cfg.uradmon_userid.isNone
      || cfg.uradmon_userkey.isNone) = true
  · refine ⟨{ cfg with Uflag := false },
      ["WARNING: uRadMonitor parameters are not specified, disabling uRadMonitor."],
      ?_, rfl, by simp⟩
    simp [hm, hU, hdet, hl, hs]
  · have hmf : (cfg.uradmon_id.isNone || cfg.uradmon_userid.isNone
        || cfg.uradmon_userkey.isNone) = false := by
      rw [Bool.eq_false_iff]; exact hm
    have hres : env.hostResolvable = false
        ∨ webserver_reachable env.probeResponse = false := by
      rcases hbad with h | h | h | h | h
      · exact absurd (by rw [h]; simp) hm
      · exact absurd (by rw [h]; simp) hm
      · exact absurd (by rw [h]; simp) hm
      · exact Or.inl h
      · exact Or.inr h
    refine ⟨{ cfg with Uflag := false },
      ["WARNING: uRadMon API URL does not resolve and/or respond, disabling uRadMontitor."],
      ?_, rfl, by simp⟩
    rcases hres with h | h <;> simp [hmf, hU, hdet, hl, hs, h]

/-- Witness for C10: a configuration with a missing device id against a
healthy environment yields a normal (non-exiting) result with
uRadMonitor disabled and a warning. -/
theorem C10_uradmon_failure_nonfatal_witness :
    ∃ c w, check_args ⟨true, false, 0, none, some "u", some "k"⟩
        ⟨some [⟨"dev.gpioths.0.%desc", "DHT22"⟩], true, some 200⟩
        = CheckResult.ok c w ∧ c.Uflag = false ∧ w ≠ [] :=
  C10_uradmon_failure_nonfatal
    ⟨true, false, 0, none, some "u", some "k"⟩
    ⟨some [⟨"dev.gpioths.0.%desc", "DHT22"⟩], true, some 200⟩
    (by decide) rfl (by decide) rfl (Or.inl rfl)

end HomeSensors
